import Mathlib

/-!
Verification of the venue occupancy backend.

The development shallowly embeds the busy-ness aggregation logic of
`src/routes/venues.ts` (route `GET /venues/:id/busy/aggregates` and the
venue-listing route `GET /venues`), the status classifiers of `backend.js`
and the database seed script, the synthetic popular-times generator of
`SerpAPIService`, and the fallback server's live-data routes of
`backend.js`.

Modelling conventions:
* JavaScript numbers carrying integer occupancy percentages are modelled
  as `ℕ` (the seed and generators only ever produce integers in [0,100];
  sums of such integers stay far below 2^53, so float addition is exact
  and order-independent in the source as well).
* The float division `total / count` computing an average is modelled in
  `ℚ`; every division in the source is guarded by a non-empty bucket.
* A JavaScript `Map` keyed by numbers is modelled as a function
  `ℕ → Option _`, with `none` for an absent key.
* `Date.prototype.getHours` / `getDay` are modelled by carrying the local
  hour and day-of-week directly on the snapshot record.
-/

/-- One persisted occupancy observation, as consumed by the aggregation
route.  `hour` and `dayOfWeek` are the values of `timestamp.getHours()`
and `timestamp.getDay()` in the source. -/
structure BusySnapshot where
  hour : ℕ
  dayOfWeek : ℕ
  occupancyPercentage : ℕ
  deriving DecidableEq, Repr

/-- Accumulator record stored per hour bucket: `{ total, count, peak }`
in `venues.ts` line 190. -/
structure HStats where
  total : ℕ
  count : ℕ
  peak : ℕ
  deriving DecidableEq, Repr

/-- The mutation performed on one hour bucket for one snapshot
(`venues.ts` lines 196–198). -/
def hstatsUpdate (s : HStats) (p : ℕ) : HStats :=
  { total := s.total + p, count := s.count + 1, peak := max s.peak p }

/-- One iteration of the `snapshots.forEach` loop building the hourly
map (`venues.ts` lines 192–201): read the bucket for the snapshot's
hour (defaulting to `{0,0,0}`), update it, and write it back. -/
def hourlyStep (m : ℕ → Option HStats) (snap : BusySnapshot) : ℕ → Option HStats :=
  fun h =>
    if h = snap.hour then
      some (hstatsUpdate ((m snap.hour).getD ⟨0, 0, 0⟩) snap.occupancyPercentage)
    else m h

/-- The `hourlyData` map after the full pass over the snapshot window. -/
def hourlyData (snaps : List BusySnapshot) : ℕ → Option HStats :=
  snaps.foldl hourlyStep (fun _ => none)

/-- One element of the `hourlyAverages` response array. -/
structure HourlyAggregate where
  hour : ℕ
  averageOccupancy : ℚ
  peakOccupancy : ℕ
  deriving DecidableEq, Repr

/-- The arrow function of `Array.from({length: 24}, (_, hour) => ...)`
(`venues.ts` lines 203–210): `data ? data.total / data.count : 0` and
`data ? data.peak : 0`. -/
def hourlyEntry (snaps : List BusySnapshot) (hour : ℕ) : HourlyAggregate :=
  match hourlyData snaps hour with
  | some data => ⟨hour, (data.total : ℚ) / (data.count : ℚ), data.peak⟩
  | none => ⟨hour, 0, 0⟩

/-- `venues.ts` lines 203–210: the 24-element `hourlyAverages` array. -/
def hourlyAverages (snaps : List BusySnapshot) : List HourlyAggregate :=
  (List.range 24).map (hourlyEntry snaps)

/-- Accumulator record stored per day-of-week bucket (`venues.ts` line 213). -/
structure DStats where
  total : ℕ
  count : ℕ
  deriving DecidableEq, Repr

/-- One iteration of the `snapshots.forEach` loop building the daily map
(`venues.ts` lines 215–223). -/
def dailyStep (m : ℕ → Option DStats) (snap : BusySnapshot) : ℕ → Option DStats :=
  fun d =>
    if d = snap.dayOfWeek then
      some ⟨((m snap.dayOfWeek).getD ⟨0, 0⟩).total + snap.occupancyPercentage,
            ((m snap.dayOfWeek).getD ⟨0, 0⟩).count + 1⟩
    else m d

/-- The `dailyData` map after the full pass over the snapshot window. -/
def dailyData (snaps : List BusySnapshot) : ℕ → Option DStats :=
  snaps.foldl dailyStep (fun _ => none)

/-- One element of the `dailyAverages` response array. -/
structure DailyAggregate where
  dayOfWeek : ℕ
  averageOccupancy : ℚ
  peakHour : ℕ
  deriving DecidableEq, Repr

/-- The step of `hourlyAverages.reduce((max, curr) =>
curr.averageOccupancy > max.averageOccupancy ? curr : max)`
(`venues.ts` lines 227–229). -/
def peakPick (m c : HourlyAggregate) : HourlyAggregate :=
  if c.averageOccupancy > m.averageOccupancy then c else m

/-- JavaScript `Array.prototype.reduce` without an initial value: start
from the first element.  `hourlyAverages` always has 24 entries, so the
empty case (where JS would throw) is unreachable; it is given a dummy
value. -/
def reducePeak : List HourlyAggregate → HourlyAggregate
  | [] => ⟨0, 0, 0⟩
  | x :: xs => xs.foldl peakPick x

/-- The arrow function of `Array.from({length: 7}, (_, day) => ...)`
(`venues.ts` lines 225–236); the `peakHour` reduction runs over the
global `hourlyAverages`, recomputed identically in every iteration. -/
def dailyEntry (snaps : List BusySnapshot) (day : ℕ) : DailyAggregate :=
  let peakHour := reducePeak (hourlyAverages snaps)
  match dailyData snaps day with
  | some data => ⟨day, (data.total : ℚ) / (data.count : ℚ), peakHour.hour⟩
  | none => ⟨day, 0, peakHour.hour⟩

/-- `venues.ts` lines 225–236: the 7-element `dailyAverages` array. -/
def dailyAverages (snaps : List BusySnapshot) : List DailyAggregate :=
  (List.range 7).map (dailyEntry snaps)

/-! ### Status classifiers

Two classifiers exist in the source: `statusFromOccupancy` in the
fallback server `backend.js` (lines 65–70) and the if/else chain of the
database seed script (the unnamed seed source, lines 175–179). -/

/-- `backend.js` lines 65–70.  The argument is a JavaScript number
(occupancy percentage); any value `≤ 0` reaches the final branch. -/
def statusFromOccupancy (pct : ℤ) : String :=
  if pct ≥ 75 then "VERY_BUSY"
  else if pct ≥ 40 then "BUSY"
  else if pct > 0 then "QUIET"
  else "UNKNOWN"

/-- The Prisma `BusyStatus` enum used by the main backend's snapshots. -/
inductive BusyStatus where
  | QUIET
  | MODERATE
  | BUSY
  | VERY_BUSY
  deriving DecidableEq, Repr

/-- Seed script status chain: `>= 80` VERY_BUSY, `>= 60` BUSY,
`>= 30` MODERATE, otherwise QUIET. -/
def seedStatus (pct : ℕ) : BusyStatus :=
  if pct ≥ 80 then .VERY_BUSY
  else if pct ≥ 60 then .BUSY
  else if pct ≥ 30 then .MODERATE
  else .QUIET

/-- The status table asserted by the specification (`< 30` QUIET,
`30–59` MODERATE, `60–79` BUSY, `≥ 80` VERY_BUSY), written from the
spec's words only, to be compared against the source classifiers. -/
def specClaimedStatus (pct : ℤ) : String :=
  if pct < 30 then "QUIET"
  else if pct < 60 then "MODERATE"
  else if pct < 80 then "BUSY"
  else "VERY_BUSY"

/-- The spec's claimed fallback-server variant: identical boundaries,
except that `0` maps to a distinct unknown tier.  Spec-side definition
for comparison only. -/
def specClaimedFallbackStatus (pct : ℤ) : String :=
  if pct = 0 then "UNKNOWN" else specClaimedStatus pct

/-! ### Synthetic popular-times generator (`SerpAPIService`)

`generateDayPattern` classifies the free-text venue category by
case-insensitive substring matching and produces 24 clamped values. -/

/-- One character of JavaScript `String.prototype.toLowerCase` on the
ASCII range (the category strings in the data are ASCII). -/
def jsToLowerChar (c : Char) : Char :=
  if 'A' ≤ c ∧ c ≤ 'Z' then Char.ofNat (c.toNat + 32) else c

/-- `category.toLowerCase()` as a list of characters. -/
def jsToLower (s : List Char) : List Char := s.map jsToLowerChar

/-- Does the second list occur at the head of the first? -/
def startsWithL : List Char → List Char → Bool
  | _, [] => true
  | [], _ :: _ => false
  | a :: as, b :: bs => a == b && startsWithL as bs

/-- JavaScript `String.prototype.includes`: does the needle occur as a
contiguous substring of the haystack? -/
def includesL : List Char → List Char → Bool
  | [], needle => needle.isEmpty
  | a :: rest, needle => startsWithL (a :: rest) needle || includesL rest needle

/-- `SerpAPIService.calculateBarPopularity` (switch on the hour). -/
def calculateBarPopularity (hour : ℕ) (isWeekend isFriday : Bool) : ℕ :=
  match hour with
  | 0 | 1 | 2 | 3 | 4 | 5 => if isWeekend || isFriday then 30 else 10
  | 6 | 7 | 8 | 9 | 10 | 11 => 5
  | 12 | 13 | 14 | 15 | 16 => if isWeekend then 35 else 20
  | 17 | 18 | 19 => if isWeekend then 65 else 50
  | 20 | 21 | 22 => if isWeekend || isFriday then 90 else 75
  | 23 => if isWeekend || isFriday then 95 else 70
  | _ => 15

/-- `SerpAPIService.calculateRestaurantPopularity`. -/
def calculateRestaurantPopularity (hour : ℕ) (isWeekend : Bool) : ℕ :=
  match hour with
  | 0 | 1 | 2 | 3 | 4 | 5 | 6 => 5
  | 7 | 8 | 9 => if isWeekend then 45 else 35
  | 10 | 11 => 20
  | 12 | 13 | 14 => 85
  | 15 | 16 | 17 => 30
  | 18 | 19 | 20 => if isWeekend then 95 else 80
  | 21 | 22 => if isWeekend then 65 else 45
  | _ => 10

/-- `SerpAPIService.calculateCafePopularity`. -/
def calculateCafePopularity (hour : ℕ) (isWeekend : Bool) : ℕ :=
  match hour with
  | 0 | 1 | 2 | 3 | 4 | 5 | 6 => 5
  | 7 | 8 | 9 => if isWeekend then 60 else 80
  | 10 | 11 => 50
  | 12 | 13 | 14 => 65
  | 15 | 16 | 17 => 45
  | 18 | 19 | 20 => 30
  | _ => 10

/-- `SerpAPIService.calculateGenericPopularity`. -/
def calculateGenericPopularity (hour : ℕ) (isWeekend : Bool) : ℕ :=
  if 0 ≤ hour ∧ hour ≤ 7 then 15
  else if 8 ≤ hour ∧ hour ≤ 11 then 45
  else if 12 ≤ hour ∧ hour ≤ 17 then 70
  else if 18 ≤ hour ∧ hour ≤ 22 then (if isWeekend then 80 else 60)
  else 25

/-- `SerpAPIService.generateDayPattern`: 24 hourly values for a
category and a 1-based day of week (`6`/`7` are Friday/Saturday in the
source's convention), each clamped with
`Math.max(0, Math.min(100, popularity))`.  The category test is
`category.toLowerCase().includes(...)` in the order bar/nightclub,
restaurant, cafe, with a generic fallback. -/
def generateDayPattern (category : String) (dayOfWeek : ℕ) : List ℕ :=
  let isWeekend := dayOfWeek == 6 || dayOfWeek == 7
  let isFriday := dayOfWeek == 6
  let categoryLower := jsToLower category.toList
  (List.range 24).map fun hour =>
    let popularity :=
      if includesL categoryLower "bar".toList || includesL categoryLower "nightclub".toList then
        calculateBarPopularity hour isWeekend isFriday
      else if includesL categoryLower "restaurant".toList then
        calculateRestaurantPopularity hour isWeekend
      else if includesL categoryLower "cafe".toList then
        calculateCafePopularity hour isWeekend
      else
        calculateGenericPopularity hour isWeekend
    max 0 (min 100 popularity)

/-- The closed category enumeration described by the spec. -/
inductive VenueCategory where
  | bar
  | restaurant
  | cafe
  | generic
  deriving DecidableEq, Repr

/-- Spec-side classification function: case-insensitive substring match
in the fixed order bar/nightclub, restaurant, cafe, first match wins,
generic as fallback. -/
def classifyCategory (category : String) : VenueCategory :=
  let cl := jsToLower category.toList
  if includesL cl "bar".toList || includesL cl "nightclub".toList then .bar
  else if includesL cl "restaurant".toList then .restaurant
  else if includesL cl "cafe".toList then .cafe
  else .generic

/-- The per-category hourly base value. -/
def categoryPopularity (c : VenueCategory) (hour : ℕ) (isWeekend isFriday : Bool) : ℕ :=
  match c with
  | .bar => calculateBarPopularity hour isWeekend isFriday
  | .restaurant => calculateRestaurantPopularity hour isWeekend
  | .cafe => calculateCafePopularity hour isWeekend
  | .generic => calculateGenericPopularity hour isWeekend

/-- The curve of a classified category: the spec-side description of
the generator's output. -/
def categoryPattern (c : VenueCategory) (dayOfWeek : ℕ) : List ℕ :=
  let isWeekend := dayOfWeek == 6 || dayOfWeek == 7
  let isFriday := dayOfWeek == 6
  (List.range 24).map fun hour => max 0 (min 100 (categoryPopularity c hour isWeekend isFriday))

/-! ### Fallback server (`backend.js`): synthetic live data and routes -/

/-- One entry of the array returned by `generateBusyTimes`
(`backend.js` lines 57–62). -/
structure BusyTimePoint where
  hour : String
  percentage : ℤ
  isPredicted : Bool
  deriving DecidableEq, Repr

/-- The fixed hour labels of `generateBusyTimes` (`backend.js` lines 53–56). -/
def busyHourLabels : List String :=
  ["10AM", "11AM", "12PM", "1PM", "2PM", "3PM", "4PM", "5PM",
   "6PM", "7PM", "8PM", "9PM", "10PM", "11PM", "12AM", "1AM", "2AM", "3AM"]

/-- `backend.js` lines 50–63.  `jitter idx` models the rounded random
offset `Math.round(Math.random() * 10 - 5)` folded into the base (the
base is an integer, so rounding commutes with adding it); the clamp is
`Math.max(0, Math.min(100, ...))`.  Every generated point carries
`isPredicted: false`. -/
def generateBusyTimes (jitter : ℕ → ℤ) : List BusyTimePoint :=
  busyHourLabels.enum.map fun p =>
    let idx : ℕ := p.1
    let base : ℤ := if idx < 8 then 10 + (idx : ℤ) * 2 else 20 + ((idx : ℤ) - 8) * 10
    let percentage := max 0 (min 100 (base + jitter idx))
    ⟨p.2, percentage, false⟩

/-- A venue record of the fallback server's `venues.json`: only the
fields the live-data computation reads.  `capacity = none` models a
record whose `capacity` is not a number. -/
structure JVenue where
  id : String
  capacity : Option ℤ
  deriving DecidableEq, Repr

/-- JavaScript `Math.round`: round half towards positive infinity. -/
def jsRound (q : ℚ) : ℤ := ⌊q + 1 / 2⌋

/-- The value cached per venue by the fallback server. -/
structure LiveData where
  currentStatus : String
  currentOccupancy : ℤ
  busyTimes : List BusyTimePoint
  deriving DecidableEq, Repr

/-- `computeLiveDataForVenue` (`backend.js` lines 72–91). -/
def computeLiveDataForVenue (jitter : ℕ → ℤ) (venue : JVenue) : LiveData :=
  let busyTimes := generateBusyTimes jitter
  let lastPoint := busyTimes.getD (busyTimes.length - 1) ⟨"", 0, false⟩
  let currentOccupancy : ℤ :=
    match venue.capacity with
    | some cap => min cap (jsRound ((cap : ℚ) * (lastPoint.percentage : ℚ) / 100))
    | none => jsRound (200 * ((lastPoint.percentage : ℚ) / 100))
  let currentPct : ℤ :=
    match venue.capacity with
    | some cap =>
      if 0 < cap then jsRound (((currentOccupancy : ℚ) / (cap : ℚ)) * 100)
      else lastPoint.percentage
    | none => lastPoint.percentage
  ⟨statusFromOccupancy currentPct, currentOccupancy, busyTimes⟩

/-- The fallback server's in-memory live cache, keyed by `live:<id>`. -/
abbrev LiveCache : Type := String → Option LiveData

/-- `liveCache.set(key, value)`. -/
def cacheInsert (cache : LiveCache) (k : String) (v : LiveData) : LiveCache :=
  fun q => if q = k then some v else cache q

/-- `GET /api/venues/:id/live` (`backend.js` lines 132–152), after the
venues file has been read successfully: unknown id is a 404; otherwise
the cached value is served, or computed and cached.  The updated cache
is returned alongside the response. -/
def getLiveRoute (venues : List JVenue) (cache : LiveCache) (jitter : ℕ → ℤ)
    (id : String) : Except (ℕ × String) (LiveData × LiveCache) :=
  match venues.find? (fun v => v.id == id) with
  | none => .error (404, "Venue not found")
  | some venue =>
    let cacheKey := "live:" ++ venue.id
    match cache cacheKey with
    | some liveData => .ok (liveData, cache)
    | none =>
      let liveData := computeLiveDataForVenue jitter venue
      .ok (liveData, cacheInsert cache cacheKey liveData)

/-- One element of the `results` array of the batch route. -/
structure BatchEntry where
  venueId : String
  liveData : LiveData
  deriving DecidableEq, Repr

/-- The `venueIds.map(...)` pass of `POST /api/venues/live-batch`
(`backend.js` lines 166–177), threading the mutable cache left to
right: unknown ids produce `null` entries. -/
def liveBatchGo (venues : List JVenue) (jitter : ℕ → ℤ) :
    List String → LiveCache → List (Option BatchEntry) × LiveCache
  | [], cache => ([], cache)
  | id :: rest, cache =>
    match venues.find? (fun v => v.id == id) with
    | none =>
      let next := liveBatchGo venues jitter rest cache
      (none :: next.1, next.2)
    | some venue =>
      let cacheKey := "live:" ++ id
      match cache cacheKey with
      | some liveData =>
        let next := liveBatchGo venues jitter rest cache
        (some ⟨id, liveData⟩ :: next.1, next.2)
      | none =>
        let liveData := computeLiveDataForVenue jitter venue
        let next := liveBatchGo venues jitter rest (cacheInsert cache cacheKey liveData)
        (some ⟨id, liveData⟩ :: next.1, next.2)

/-- `POST /api/venues/live-batch` response body: the map pass followed
by `.filter(Boolean)`. -/
def liveBatchRoute (venues : List JVenue) (jitter : ℕ → ℤ) (cache : LiveCache)
    (venueIds : List String) : List BatchEntry :=
  (liveBatchGo venues jitter venueIds cache).1.reduceOption

/-! ### Venue listing (`GET /venues`, `venues.ts` lines 75–84) -/

/-- A `busySnapshot` row as selected by the listing query
(`status` is the Prisma `BusyStatus` enum). -/
structure DBSnapshot where
  status : BusyStatus
  occupancyCount : ℕ
  occupancyPercentage : ℕ
  deriving DecidableEq, Repr

/-- A venue as returned by the listing query: `busySnapshots` holds the
snapshots of the last 24 hours, most recent first, truncated to one
(`take: 1`). -/
structure DBVenue where
  id : String
  busySnapshots : List DBSnapshot
  deriving DecidableEq, Repr

/-- The listing response entry. -/
structure VenueWithStatus where
  id : String
  currentStatus : BusyStatus
  currentOccupancy : ℕ
  occupancyPercentage : ℕ
  deriving DecidableEq, Repr

/-- The arrow function of `venues.map(...)` (`venues.ts` lines 75–84).
`latestSnapshot?.status || 'MODERATE'` is modelled with `getD`: the
enum serialises to a non-empty (truthy) string, and for the numeric
fields JavaScript `x || 0` equals `x` whether or not `x` is `0`. -/
def venueWithStatus (venue : DBVenue) : VenueWithStatus :=
  let latestSnapshot := venue.busySnapshots.head?
  { id := venue.id
    currentStatus := (latestSnapshot.map DBSnapshot.status).getD .MODERATE
    currentOccupancy := (latestSnapshot.map DBSnapshot.occupancyCount).getD 0
    occupancyPercentage := (latestSnapshot.map DBSnapshot.occupancyPercentage).getD 0 }

/-! ### Characterisation of the bucket maps

The `foldl` building each bucket map is related to the sublist of
snapshots falling in that bucket, which yields the zero-fill,
no-empty-division and permutation-invariance facts. -/

/-- Effect of one loop iteration on the one bucket it touches. -/
def bucketH (acc : Option HStats) (s : BusySnapshot) : Option HStats :=
  some (hstatsUpdate (acc.getD ⟨0, 0, 0⟩) s.occupancyPercentage)

/-- Effect of one daily-loop iteration on the one bucket it touches. -/
def bucketD (acc : Option DStats) (s : BusySnapshot) : Option DStats :=
  some ⟨(acc.getD ⟨0, 0⟩).total + s.occupancyPercentage, (acc.getD ⟨0, 0⟩).count + 1⟩

theorem hourlyData_filter (snaps : List BusySnapshot) (m : ℕ → Option HStats) (h : ℕ) :
    (snaps.foldl hourlyStep m) h
      = (snaps.filter (fun s => s.hour == h)).foldl bucketH (m h) := by
  induction snaps generalizing m with
  | nil => rfl
  | cons s rest ih =>
    simp only [List.foldl_cons, List.filter_cons]
    by_cases hs : s.hour = h
    · simp only [hs, beq_self_eq_true, if_pos, List.foldl_cons]
      rw [ih]
      congr 1
      simp [hourlyStep, bucketH, hs]
    · have hb : (s.hour == h) = false := beq_eq_false_iff_ne.mpr hs
      simp only [hb, Bool.false_eq_true, if_neg, ite_false]
      rw [ih]
      congr 1
      simp only [hourlyStep]
      rw [if_neg (fun hh => hs hh.symm)]

theorem dailyData_filter (snaps : List BusySnapshot) (m : ℕ → Option DStats) (d : ℕ) :
    (snaps.foldl dailyStep m) d
      = (snaps.filter (fun s => s.dayOfWeek == d)).foldl bucketD (m d) := by
  induction snaps generalizing m with
  | nil => rfl
  | cons s rest ih =>
    simp only [List.foldl_cons, List.filter_cons]
    by_cases hs : s.dayOfWeek = d
    · simp only [hs, beq_self_eq_true, if_pos, List.foldl_cons]
      rw [ih]
      congr 1
      simp [dailyStep, bucketD, hs]
    · have hb : (s.dayOfWeek == d) = false := beq_eq_false_iff_ne.mpr hs
      simp only [hb, Bool.false_eq_true, if_neg, ite_false]
      rw [ih]
      congr 1
      simp only [dailyStep]
      rw [if_neg (fun hh => hs hh.symm)]

theorem bucketH_foldl_some (l : List BusySnapshot) (st : HStats) :
    ∃ st', l.foldl bucketH (some st) = some st' ∧ st.count ≤ st'.count := by
  induction l generalizing st with
  | nil => exact ⟨st, rfl, le_refl _⟩
  | cons s rest ih =>
    obtain ⟨st', h1, h2⟩ := ih (hstatsUpdate st s.occupancyPercentage)
    refine ⟨st', ?_, ?_⟩
    · simpa [bucketH] using h1
    · exact le_trans (Nat.le_succ _) h2

theorem bucketD_foldl_some (l : List BusySnapshot) (st : DStats) :
    ∃ st', l.foldl bucketD (some st) = some st' ∧ st.count ≤ st'.count := by
  induction l generalizing st with
  | nil => exact ⟨st, rfl, le_refl _⟩
  | cons s rest ih =>
    obtain ⟨st', h1, h2⟩ :=
      ih ⟨st.total + s.occupancyPercentage, st.count + 1⟩
    refine ⟨st', ?_, ?_⟩
    · simpa [bucketD] using h1
    · exact le_trans (Nat.le_succ _) h2

/-- An hour bucket is present in the map iff some snapshot fell in it. -/
theorem hourlyData_eq_none (snaps : List BusySnapshot) (h : ℕ)
    (hno : ∀ s ∈ snaps, s.hour ≠ h) : hourlyData snaps h = none := by
  have hfil : snaps.filter (fun s => s.hour == h) = [] := by
    apply List.filter_eq_nil_iff.mpr
    intro s hs
    simpa using hno s hs
  rw [hourlyData, hourlyData_filter, hfil]
  rfl

theorem dailyData_eq_none (snaps : List BusySnapshot) (d : ℕ)
    (hno : ∀ s ∈ snaps, s.dayOfWeek ≠ d) : dailyData snaps d = none := by
  have hfil : snaps.filter (fun s => s.dayOfWeek == d) = [] := by
    apply List.filter_eq_nil_iff.mpr
    intro s hs
    simpa using hno s hs
  rw [dailyData, dailyData_filter, hfil]
  rfl

/-- Whenever the hourly map holds a bucket, its count is positive: the
division `data.total / data.count` never divides by zero. -/
theorem hourlyData_count_pos (snaps : List BusySnapshot) (h : ℕ) (st : HStats)
    (hsome : hourlyData snaps h = some st) : 0 < st.count := by
  rw [hourlyData, hourlyData_filter] at hsome
  revert hsome
  cases hfil : snaps.filter (fun s => s.hour == h) with
  | nil => intro hsome; cases hsome
  | cons s rest =>
    intro hsome
    simp only [List.foldl_cons] at hsome
    have hstep : bucketH none s
        = some (hstatsUpdate ⟨0, 0, 0⟩ s.occupancyPercentage) := rfl
    rw [hstep] at hsome
    obtain ⟨st', h1, h2⟩ := bucketH_foldl_some rest (hstatsUpdate ⟨0, 0, 0⟩ s.occupancyPercentage)
    rw [h1] at hsome
    cases hsome
    exact lt_of_lt_of_le (Nat.succ_pos 0) h2

theorem dailyData_count_pos (snaps : List BusySnapshot) (d : ℕ) (st : DStats)
    (hsome : dailyData snaps d = some st) : 0 < st.count := by
  rw [dailyData, dailyData_filter] at hsome
  revert hsome
  cases hfil : snaps.filter (fun s => s.dayOfWeek == d) with
  | nil => intro hsome; cases hsome
  | cons s rest =>
    intro hsome
    simp only [List.foldl_cons] at hsome
    have hstep : bucketD none s = some ⟨0 + s.occupancyPercentage, 0 + 1⟩ := rfl
    rw [hstep] at hsome
    obtain ⟨st', h1, h2⟩ := bucketD_foldl_some rest ⟨0 + s.occupancyPercentage, 0 + 1⟩
    rw [h1] at hsome
    cases hsome
    exact lt_of_lt_of_le (Nat.succ_pos 0) h2

/-- Folding a right-commutative step over a list only depends on the
multiset of elements. -/
theorem foldl_perm_of_comm {α β : Type} {f : β → α → β}
    (hf : ∀ b x y, f (f b x) y = f (f b y) x) :
    ∀ {l₁ l₂ : List α}, l₁.Perm l₂ → ∀ b, l₁.foldl f b = l₂.foldl f b := by
  intro l₁ l₂ p
  induction p with
  | nil => intro b; rfl
  | cons x _ ih => intro b; simp only [List.foldl_cons]; exact ih _
  | swap x y l => intro b; simp only [List.foldl_cons]; rw [hf]
  | trans _ _ ih₁ ih₂ => intro b; exact (ih₁ b).trans (ih₂ b)

theorem hstatsUpdate_comm (st : HStats) (p q : ℕ) :
    hstatsUpdate (hstatsUpdate st p) q = hstatsUpdate (hstatsUpdate st q) p := by
  unfold hstatsUpdate
  rw [Nat.add_right_comm, max_assoc, max_comm p q, ← max_assoc]

theorem bucketH_comm (acc : Option HStats) (x y : BusySnapshot) :
    bucketH (bucketH acc x) y = bucketH (bucketH acc y) x := by
  simp only [bucketH, Option.getD_some]
  rw [hstatsUpdate_comm]

theorem bucketD_comm (acc : Option DStats) (x y : BusySnapshot) :
    bucketD (bucketD acc x) y = bucketD (bucketD acc y) x := by
  unfold bucketD
  simp only [Option.getD_some]
  rw [Nat.add_right_comm]

/-- The hourly bucket map depends only on the multiset of snapshots. -/
theorem hourlyData_perm {l₁ l₂ : List BusySnapshot} (p : l₁.Perm l₂) :
    hourlyData l₁ = hourlyData l₂ := by
  funext h
  rw [hourlyData, hourlyData, hourlyData_filter, hourlyData_filter]
  exact foldl_perm_of_comm bucketH_comm (p.filter _) _

/-- The daily bucket map depends only on the multiset of snapshots. -/
theorem dailyData_perm {l₁ l₂ : List BusySnapshot} (p : l₁.Perm l₂) :
    dailyData l₁ = dailyData l₂ := by
  funext d
  rw [dailyData, dailyData, dailyData_filter, dailyData_filter]
  exact foldl_perm_of_comm bucketD_comm (p.filter _) _

theorem hourlyEntry_hour (snaps : List BusySnapshot) (h : ℕ) :
    (hourlyEntry snaps h).hour = h := by
  rw [hourlyEntry]
  cases hourlyData snaps h <;> rfl

theorem dailyEntry_day (snaps : List BusySnapshot) (d : ℕ) :
    (dailyEntry snaps d).dayOfWeek = d := by
  rw [dailyEntry]
  cases dailyData snaps d <;> rfl

/-- Claim C1: for every input window of snapshots, the aggregation
endpoint produces exactly 24 hourly entries indexed 0–23 and exactly 7
daily entries indexed 0–6, and every hour with zero observations
reports `averageOccupancy = 0` and `peakOccupancy = 0` (explicit
zero-fill, never omission of a bucket). -/
theorem aggregates_shape_and_zero_fill (snaps : List BusySnapshot) :
    (hourlyAverages snaps).map HourlyAggregate.hour = List.range 24 ∧
    (dailyAverages snaps).map DailyAggregate.dayOfWeek = List.range 7 ∧
    ∀ h : ℕ, h < 24 → (∀ s ∈ snaps, s.hour ≠ h) →
      (hourlyAverages snaps)[h]? = some ⟨h, 0, 0⟩ := by
  refine ⟨?_, ?_, ?_⟩
  · rw [hourlyAverages, List.map_map]
    have hcomp : HourlyAggregate.hour ∘ hourlyEntry snaps = id :=
      funext fun h => hourlyEntry_hour snaps h
    rw [hcomp, List.map_id]
  · rw [dailyAverages, List.map_map]
    have hcomp : DailyAggregate.dayOfWeek ∘ dailyEntry snaps = id :=
      funext fun d => dailyEntry_day snaps d
    rw [hcomp, List.map_id]
  · intro h hlt hno
    rw [hourlyAverages, List.getElem?_map]
    have hrange : (List.range 24)[h]? = some h := by
      simp [List.getElem?_range, hlt]
    rw [hrange, Option.map_some']
    rw [hourlyEntry, hourlyData_eq_none snaps h hno]

/-- Concrete instantiation of `aggregates_shape_and_zero_fill`. -/
theorem aggregates_shape_and_zero_fill_witness :
    (hourlyAverages [⟨20, 5, 70⟩])[3]? = some ⟨3, 0, 0⟩ :=
  (aggregates_shape_and_zero_fill [⟨20, 5, 70⟩]).2.2 3 (by decide) (by decide)

/-- Claim C2: for every list of snapshots and every permutation of that
list, aggregation yields the same hourly and daily aggregates: the
per-hour and per-day reduction is invariant to the order of the input
snapshot sequence. -/
theorem aggregates_perm_invariant {l₁ l₂ : List BusySnapshot} (p : l₁.Perm l₂) :
    hourlyAverages l₁ = hourlyAverages l₂ ∧ dailyAverages l₁ = dailyAverages l₂ := by
  have hh : hourlyAverages l₁ = hourlyAverages l₂ := by
    rw [hourlyAverages, hourlyAverages]
    have : hourlyEntry l₁ = hourlyEntry l₂ := by
      funext h
      rw [hourlyEntry, hourlyEntry, hourlyData_perm p]
    rw [this]
  refine ⟨hh, ?_⟩
  rw [dailyAverages, dailyAverages]
  have : dailyEntry l₁ = dailyEntry l₂ := by
    funext d
    rw [dailyEntry, dailyEntry, dailyData_perm p, hh]
  rw [this]

/-- Concrete instantiation of `aggregates_perm_invariant` on a two-element
window and its transposition. -/
theorem aggregates_perm_invariant_witness :
    hourlyAverages [⟨20, 5, 70⟩, ⟨3, 2, 10⟩] = hourlyAverages [⟨3, 2, 10⟩, ⟨20, 5, 70⟩] ∧
    dailyAverages [⟨20, 5, 70⟩, ⟨3, 2, 10⟩] = dailyAverages [⟨3, 2, 10⟩, ⟨20, 5, 70⟩] :=
  aggregates_perm_invariant (List.Perm.swap (⟨3, 2, 10⟩ : BusySnapshot) ⟨20, 5, 70⟩ [])

/-- Claim C3: on the concrete window with percentages 70 and 90 at local
hour 20 and percentage 10 at local hour 3, aggregation yields
`hourlyAggregates[20] = {average 80, peak 90}`,
`hourlyAggregates[3] = {average 10, peak 10}`, and `{average 0, peak 0}`
at every other hour. -/
theorem hourly_concrete_scenario :
    (hourlyAverages [⟨20, 5, 70⟩, ⟨20, 5, 90⟩, ⟨3, 5, 10⟩])[20]? = some ⟨20, 80, 90⟩ ∧
    (hourlyAverages [⟨20, 5, 70⟩, ⟨20, 5, 90⟩, ⟨3, 5, 10⟩])[3]? = some ⟨3, 10, 10⟩ ∧
    ∀ h : ℕ, h < 24 → h ≠ 20 → h ≠ 3 →
      (hourlyAverages [⟨20, 5, 70⟩, ⟨20, 5, 90⟩, ⟨3, 5, 10⟩])[h]? = some ⟨h, 0, 0⟩ := by
  have h20 : hourlyData [⟨20, 5, 70⟩, ⟨20, 5, 90⟩, ⟨3, 5, 10⟩] 20
      = some ⟨160, 2, 90⟩ := by decide
  have h3 : hourlyData [⟨20, 5, 70⟩, ⟨20, 5, 90⟩, ⟨3, 5, 10⟩] 3
      = some ⟨10, 1, 10⟩ := by decide
  have hz : ∀ h : ℕ, h < 24 → h ≠ 20 → h ≠ 3 →
      hourlyData [⟨20, 5, 70⟩, ⟨20, 5, 90⟩, ⟨3, 5, 10⟩] h = none := by decide
  refine ⟨?_, ?_, ?_⟩
  · rw [hourlyAverages, List.getElem?_map]
    have hr : (List.range 24)[20]? = some 20 := by decide
    rw [hr, Option.map_some', hourlyEntry, h20]
    norm_num
  · rw [hourlyAverages, List.getElem?_map]
    have hr : (List.range 24)[3]? = some 3 := by decide
    rw [hr, Option.map_some', hourlyEntry, h3]
    norm_num
  · intro h hlt hne20 hne3
    rw [hourlyAverages, List.getElem?_map]
    have hr : (List.range 24)[h]? = some h := by
      simp [List.getElem?_range, hlt]
    rw [hr, Option.map_some', hourlyEntry, hz h hlt hne20 hne3]

/-- Concrete instantiation of `hourly_concrete_scenario` at hour 7. -/
theorem hourly_concrete_scenario_witness :
    (hourlyAverages [⟨20, 5, 70⟩, ⟨20, 5, 90⟩, ⟨3, 5, 10⟩])[7]? = some ⟨7, 0, 0⟩ :=
  hourly_concrete_scenario.2.2 7 (by decide) (by decide) (by decide)

set_option maxRecDepth 8192 in
/-- Claim C5: aggregation over an empty snapshot window succeeds and
returns all-zero aggregates, never an error; the computation is total
(the embedding is a total function) and no division by a zero count is
performed: every bucket that reaches the division has a positive count. -/
theorem empty_window_all_zero :
    hourlyAverages [] = (List.range 24).map (fun h => ⟨h, 0, 0⟩) ∧
    dailyAverages [] = (List.range 7).map (fun d => ⟨d, 0, 0⟩) ∧
    (∀ snaps h st, hourlyData snaps h = some st → 0 < st.count) ∧
    (∀ snaps d st, dailyData snaps d = some st → 0 < st.count) := by
  refine ⟨by decide, by decide, ?_, ?_⟩
  · exact fun snaps h st hsome => hourlyData_count_pos snaps h st hsome
  · exact fun snaps d st hsome => dailyData_count_pos snaps d st hsome

/-- Concrete instantiation of `empty_window_all_zero`: the singleton
window at hour 20 yields a bucket with positive count. -/
theorem empty_window_all_zero_witness :
    0 < (HStats.mk 70 1 70).count :=
  empty_window_all_zero.2.2.1 [⟨20, 5, 70⟩] 20 ⟨70, 1, 70⟩ (by decide)

/-! ### The daily `peakHour` (claim C4) -/

theorem peakPick_cases (m c : HourlyAggregate) : peakPick m c = m ∨ peakPick m c = c := by
  unfold peakPick
  by_cases h : c.averageOccupancy > m.averageOccupancy
  · rw [if_pos h]; exact Or.inr rfl
  · rw [if_neg h]; exact Or.inl rfl

theorem peakPick_le_left (m c : HourlyAggregate) :
    m.averageOccupancy ≤ (peakPick m c).averageOccupancy := by
  unfold peakPick
  by_cases h : c.averageOccupancy > m.averageOccupancy
  · rw [if_pos h]; exact le_of_lt h
  · rw [if_neg h]

theorem peakPick_le_right (m c : HourlyAggregate) :
    c.averageOccupancy ≤ (peakPick m c).averageOccupancy := by
  unfold peakPick
  by_cases h : c.averageOccupancy > m.averageOccupancy
  · rw [if_pos h]
  · rw [if_neg h]; exact le_of_not_lt h

theorem peakPick_foldl_mem (xs : List HourlyAggregate) (x : HourlyAggregate) :
    xs.foldl peakPick x ∈ x :: xs := by
  induction xs generalizing x with
  | nil => exact List.mem_cons_self x []
  | cons y ys ih =>
    simp only [List.foldl_cons]
    have hm := ih (peakPick x y)
    rcases List.mem_cons.mp hm with h | h
    · rw [h]
      rcases peakPick_cases x y with hp | hp
      · rw [hp]; exact List.mem_cons_self _ _
      · rw [hp]; exact List.mem_cons_of_mem _ (List.mem_cons_self _ _)
    · exact List.mem_cons_of_mem _ (List.mem_cons_of_mem _ h)

theorem peakPick_foldl_ge :
    ∀ (xs : List HourlyAggregate) (x y : HourlyAggregate), y ∈ x :: xs →
      y.averageOccupancy ≤ (xs.foldl peakPick x).averageOccupancy := by
  intro xs
  induction xs with
  | nil =>
    intro x y hy
    rcases List.mem_cons.mp hy with h | h
    · rw [h]; exact le_of_eq rfl
    · cases h
  | cons z zs ih =>
    intro x y hy
    simp only [List.foldl_cons]
    rcases List.mem_cons.mp hy with h | h
    · rw [h]
      exact le_trans (peakPick_le_left x z) (ih _ _ (List.mem_cons_self _ _))
    · rcases List.mem_cons.mp h with h2 | h2
      · rw [h2]
        exact le_trans (peakPick_le_right x z) (ih _ _ (List.mem_cons_self _ _))
      · exact ih _ _ (List.mem_cons_of_mem _ h2)

theorem reducePeak_mem (l : List HourlyAggregate) (hl : l ≠ []) : reducePeak l ∈ l := by
  match l with
  | [] => exact absurd rfl hl
  | x :: xs => exact peakPick_foldl_mem xs x

theorem reducePeak_ge (l : List HourlyAggregate) (a : HourlyAggregate) (ha : a ∈ l) :
    a.averageOccupancy ≤ (reducePeak l).averageOccupancy := by
  match l with
  | [] => cases ha
  | x :: xs => exact peakPick_foldl_ge xs x a ha

set_option maxRecDepth 8192 in
theorem dailyEntry_peakHour (snaps : List BusySnapshot) (d : ℕ) :
    (dailyEntry snaps d).peakHour = (reducePeak (hourlyAverages snaps)).hour := by
  rw [dailyEntry]
  cases dailyData snaps d <;> rfl

/-- Claim C4: for every input window, every one of the 7 daily entries
carries the same `peakHour` value, namely the hour of a global hourly
aggregate whose `averageOccupancy` (computed over the whole window, not
per day) is maximal among all 24 hours; the `peakHour` field does not
depend on the day-of-week bucket. -/
theorem daily_peak_hour_is_global (snaps : List BusySnapshot) :
    (∀ e ∈ dailyAverages snaps, e.peakHour = (reducePeak (hourlyAverages snaps)).hour) ∧
    reducePeak (hourlyAverages snaps) ∈ hourlyAverages snaps ∧
    ∀ a ∈ hourlyAverages snaps,
      a.averageOccupancy ≤ (reducePeak (hourlyAverages snaps)).averageOccupancy := by
  refine ⟨?_, ?_, ?_⟩
  · intro e he
    obtain ⟨d, _, rfl⟩ := List.mem_map.mp he
    exact dailyEntry_peakHour snaps d
  · apply reducePeak_mem
    intro hcontra
    have hlen := congrArg List.length hcontra
    simp [hourlyAverages] at hlen
  · exact fun a ha => reducePeak_ge _ a ha

set_option maxRecDepth 8192 in
/-- Concrete instantiation of `daily_peak_hour_is_global` on the empty
window: each daily entry carries the global reduce result's hour. -/
theorem daily_peak_hour_is_global_witness :
    (DailyAggregate.mk 0 0 0).peakHour = (reducePeak (hourlyAverages [])).hour := by
  have h1 : dailyEntry [] 0 = ⟨0, 0, 0⟩ := by decide
  have hmem : (⟨0, 0, 0⟩ : DailyAggregate) ∈ dailyAverages [] := by
    rw [dailyAverages, ← h1]
    exact List.mem_map_of_mem _ (by decide)
  exact (daily_peak_hour_is_global []).1 ⟨0, 0, 0⟩ hmem

/-! ### Status classification boundaries (claim C6)

The claim asserts a single boundary table (`< 30` QUIET, `30–59`
MODERATE, `60–79` BUSY, `≥ 80` VERY_BUSY, with `0 → UNKNOWN` in the
fallback server) applied by every classifier.  The seed classifier does
follow that table, but the fallback server's `statusFromOccupancy` uses
the boundaries `0 / 40 / 75` and has no MODERATE tier at all. -/

/-- Counterexample to claim C6 as stated: at percentage `40` the
fallback server returns `BUSY`, while the claimed 30–59 → MODERATE band
requires `MODERATE`. -/
theorem status_boundaries_counterexample :
    statusFromOccupancy 40 = "BUSY" ∧
    specClaimedFallbackStatus 40 = "MODERATE" ∧
    statusFromOccupancy 40 ≠ specClaimedFallbackStatus 40 := by
  refine ⟨by decide, by decide, by decide⟩

/-- Claim C6 (amended): the seed classifier applies exactly the
`30 / 60 / 80` boundaries (`< 30` QUIET, `30–59` MODERATE, `60–79`
BUSY, `≥ 80` VERY_BUSY); the fallback server's classifier instead maps
`0` (and any non-positive value) to UNKNOWN, `1–39` to QUIET, `40–74`
to BUSY and `≥ 75` to VERY_BUSY, with no MODERATE tier.  Each table is
applied uniformly by its own classifier. -/
theorem status_boundaries_amended (pct : ℕ) :
    (pct < 30 → seedStatus pct = .QUIET) ∧
    (30 ≤ pct → pct < 60 → seedStatus pct = .MODERATE) ∧
    (60 ≤ pct → pct < 80 → seedStatus pct = .BUSY) ∧
    (80 ≤ pct → seedStatus pct = .VERY_BUSY) ∧
    (pct = 0 → statusFromOccupancy (pct : ℤ) = "UNKNOWN") ∧
    (1 ≤ pct → pct < 40 → statusFromOccupancy (pct : ℤ) = "QUIET") ∧
    (40 ≤ pct → pct < 75 → statusFromOccupancy (pct : ℤ) = "BUSY") ∧
    (75 ≤ pct → statusFromOccupancy (pct : ℤ) = "VERY_BUSY") := by
  unfold seedStatus statusFromOccupancy
  refine ⟨?_, ?_, ?_, ?_, ?_, ?_, ?_, ?_⟩ <;> intros <;> split_ifs <;>
    first | rfl | omega

/-- Concrete instantiation of `status_boundaries_amended` at 45. -/
theorem status_boundaries_amended_witness :
    seedStatus 45 = .MODERATE ∧ statusFromOccupancy (45 : ℤ) = "BUSY" :=
  ⟨(status_boundaries_amended 45).2.1 (by decide) (by decide),
   (status_boundaries_amended 45).2.2.2.2.2.2.1 (by decide) (by decide)⟩

/-! ### Synthetic generator classification (claim C7) -/

/-- Claim C7: for every category string, `generateDayPattern` resolves
to the curve of the category selected by case-insensitive substring
match in the fixed order bar/nightclub, then restaurant, then cafe,
first match winning, with the generic curve for every unrecognized
category (including the empty string and "Laundromat"); the generator
is a total function, so it never errors on any category input. -/
theorem generateDayPattern_classifies (category : String) (dayOfWeek : ℕ) :
    generateDayPattern category dayOfWeek
      = categoryPattern (classifyCategory category) dayOfWeek ∧
    classifyCategory "" = .generic ∧
    classifyCategory "Laundromat" = .generic := by
  refine ⟨?_, by decide, by decide⟩
  by_cases h1 : (includesL (jsToLower category.toList) "bar".toList
      || includesL (jsToLower category.toList) "nightclub".toList) = true
  · simp only [generateDayPattern, categoryPattern, classifyCategory,
      categoryPopularity, h1, if_true]
  · by_cases h2 : includesL (jsToLower category.toList) "restaurant".toList = true
    · simp only [generateDayPattern, categoryPattern, classifyCategory,
        categoryPopularity, h1, h2, if_false, if_true]
      simp
    · by_cases h3 : includesL (jsToLower category.toList) "cafe".toList = true
      · simp only [generateDayPattern, categoryPattern, classifyCategory,
          categoryPopularity, h1, h2, h3, if_false, if_true]
        simp
      · simp only [generateDayPattern, categoryPattern, classifyCategory,
          categoryPopularity, h1, h2, h3, if_false]
        simp

/-! ### Synthetic curve points are not marked as predicted (claim C8)

The claim asserts `isPredicted = true` for every synthetically
generated point; `generateBusyTimes` hard-codes `isPredicted: false`
(`backend.js` line 61). -/

/-- Counterexample to claim C8 as stated: with the zero jitter source,
not every generated point has `isPredicted = true` (in fact none has). -/
theorem synthetic_is_predicted_counterexample :
    ((generateBusyTimes (fun _ => 0)).all fun p => p.isPredicted) = false := by
  decide

/-- Claim C8 (amended): every point of a synthetically generated
occupancy curve has `isPredicted = false`, for every jitter source:
synthetic (non-live) data is never marked as predicted. -/
theorem synthetic_is_predicted_amended (jitter : ℕ → ℤ) :
    (generateBusyTimes jitter).map BusyTimePoint.isPredicted
      = List.replicate 18 false := by
  rfl

/-! ### Batch lookup omits unknown ids; single lookup 404s (claim C9) -/

theorem liveBatch_map_venueId (venues : List JVenue) (jitter : ℕ → ℤ) :
    ∀ (ids : List String) (cache : LiveCache),
      (liveBatchRoute venues jitter cache ids).map BatchEntry.venueId
        = ids.filter (fun i => (venues.find? (fun v => v.id == i)).isSome) := by
  intro ids
  induction ids with
  | nil => intro cache; rfl
  | cons id rest ih =>
    intro cache
    rw [liveBatchRoute]
    cases hf : venues.find? (fun v => v.id == id) with
    | none =>
      simp only [liveBatchGo, hf, List.filter_cons, Option.isSome_none,
        Bool.false_eq_true, if_false, List.reduceOption_cons_of_none]
      have hrest := ih cache
      rw [liveBatchRoute] at hrest
      simpa using hrest
    | some venue =>
      cases hc : cache ("live:" ++ id) with
      | some ld =>
        simp only [liveBatchGo, hf, hc, List.reduceOption_cons_of_some,
          List.map_cons, List.filter_cons, Option.isSome_some, if_true]
        have hrest := ih cache
        rw [liveBatchRoute] at hrest
        simpa using hrest
      | none =>
        simp only [liveBatchGo, hf, hc, List.reduceOption_cons_of_some,
          List.map_cons, List.filter_cons, Option.isSome_some, if_true]
        have hrest := ih (cacheInsert cache ("live:" ++ id)
          (computeLiveDataForVenue jitter venue))
        rw [liveBatchRoute] at hrest
        simpa using hrest

/-- Claim C9: for every batch request mixing known and unknown venue
ids, the batch live-data lookup returns one entry per known id, in
request order, and silently omits every unknown id without raising an
error; the single-venue lookup for an unknown id fails with
`404 Venue not found`. -/
theorem batch_omits_unknown_single_404 (venues : List JVenue) (jitter : ℕ → ℤ)
    (cache : LiveCache) (ids : List String) (id : String) :
    ((liveBatchRoute venues jitter cache ids).map BatchEntry.venueId
        = ids.filter (fun i => (venues.find? (fun v => v.id == i)).isSome)) ∧
    (venues.find? (fun v => v.id == id) = none →
      getLiveRoute venues cache jitter id = .error (404, "Venue not found")) := by
  refine ⟨liveBatch_map_venueId venues jitter ids cache, ?_⟩
  intro h
  simp [getLiveRoute, h]

/-- Concrete instantiation of `batch_omits_unknown_single_404`: one
known id `"1"` and one unknown id `"2"` in the batch; the unknown id
`"zzz"` in a single lookup. -/
theorem batch_omits_unknown_single_404_witness :
    ((liveBatchRoute [⟨"1", some 100⟩] (fun _ => 0) (fun _ => none) ["1", "2"]).map
        BatchEntry.venueId = ["1"]) ∧
    getLiveRoute [⟨"1", some 100⟩] (fun _ => none) (fun _ => 0) "zzz"
      = .error (404, "Venue not found") := by
  have h := batch_omits_unknown_single_404 [⟨"1", some 100⟩] (fun _ => 0)
    (fun _ => none) ["1", "2"] "zzz"
  exact ⟨h.1.trans (by decide), h.2 (by decide)⟩

/-! ### Venue listing fallback status (claim C10) -/

/-- Claim C10: in the venue listing, every venue whose last-24-hours
snapshot query is empty is reported with `currentStatus = MODERATE`
(not QUIET or an unknown tier), `currentOccupancy = 0` and
`occupancyPercentage = 0`; otherwise the three fields come from the
single most recent snapshot. -/
theorem venue_listing_fallback (v : DBVenue) :
    (v.busySnapshots = [] → venueWithStatus v = ⟨v.id, .MODERATE, 0, 0⟩) ∧
    ∀ s rest, v.busySnapshots = s :: rest →
      venueWithStatus v = ⟨v.id, s.status, s.occupancyCount, s.occupancyPercentage⟩ := by
  constructor
  · intro h
    simp [venueWithStatus, h]
  · intro s rest h
    simp [venueWithStatus, h]

/-- Concrete instantiation of `venue_listing_fallback` on a venue with
no recent snapshot and one with a recent BUSY snapshot. -/
theorem venue_listing_fallback_witness :
    venueWithStatus ⟨"v1", []⟩ = ⟨"v1", .MODERATE, 0, 0⟩ ∧
    venueWithStatus ⟨"v2", [⟨.BUSY, 50, 60⟩]⟩ = ⟨"v2", .BUSY, 50, 60⟩ :=
  ⟨(venue_listing_fallback ⟨"v1", []⟩).1 rfl,
   (venue_listing_fallback ⟨"v2", [⟨.BUSY, 50, 60⟩]⟩).2 ⟨.BUSY, 50, 60⟩ [] rfl⟩
